import Mathlib

/-!
Verification of the inference and evaluation core of the DogAdoptionWithMlFlow
repository, as a shallow embedding in Lean 4.

The embedding covers:
- the top-3 ranking step of predict_breed (src/functionalApi.py, lines 274-285),
  with numpy argsort modelled as a stable ascending argsort (ties keep the
  original index order, i.e. indices are sorted by the lexicographic key
  (value, index));
- the bounding-box clamping and crop validation of predict_breed
  (src/functionalApi.py, lines 247-259);
- the first-dog selection loop of predict_breed (src/functionalApi.py,
  lines 236-244);
- the whole predict_breed control flow including its catch-all exception
  handler (src/functionalApi.py, lines 220-314), with fallible operations
  (image loading, file IO, out-of-range list indexing) modelled as
  Except-valued computations;
- the DogBreedEvaluator metric computation (src/model/evaluator.py,
  lines 118-159), top-k accuracy (lines 278-308), worst-prediction ranking
  (lines 310-354) and result persistence (lines 372-396), together with the
  persistence tail of the evaluate_model step (src/steps/evaluate_model.py,
  lines 90-95).

Probabilities and metric values are modelled as rationals.
-/

/-- Lexicographic comparison key used to model numpy argsort on a value
list v: index i precedes index j when the value at i is smaller, or the
values are equal and i does not exceed j. Sorting indices by this total
order is exactly a stable ascending argsort. -/
def argKey (v : List ℚ) (i j : ℕ) : Prop :=
  v.getD i 0 < v.getD j 0 ∨ (v.getD i 0 = v.getD j 0 ∧ i ≤ j)

instance argKeyDecidable (v : List ℚ) : DecidableRel (argKey v) := fun i j =>
  inferInstanceAs (Decidable (v.getD i 0 < v.getD j 0 ∨ (v.getD i 0 = v.getD j 0 ∧ i ≤ j)))

instance argKeyTotal (v : List ℚ) : IsTotal ℕ (argKey v) := by
  constructor
  intro i j
  rcases lt_trichotomy (v.getD i 0) (v.getD j 0) with h | h | h
  · exact Or.inl (Or.inl h)
  · rcases Nat.le_total i j with hij | hij
    · exact Or.inl (Or.inr ⟨h, hij⟩)
    · exact Or.inr (Or.inr ⟨h.symm, hij⟩)
  · exact Or.inr (Or.inl h)

instance argKeyTrans (v : List ℚ) : IsTrans ℕ (argKey v) := by
  constructor
  intro a b c hab hbc
  rcases hab with h | ⟨he, hle⟩
  · rcases hbc with h2 | ⟨he2, _⟩
    · exact Or.inl (h.trans h2)
    · exact Or.inl (lt_of_lt_of_le h (le_of_eq he2))
  · rcases hbc with h2 | ⟨he2, hle2⟩
    · exact Or.inl (lt_of_le_of_lt (le_of_eq he) h2)
    · exact Or.inr ⟨he.trans he2, hle.trans hle2⟩

/-- Model of numpy argsort on a probability vector: the indices
0, ..., length - 1 sorted ascending by value, ties keeping original index
order (stable). Models probs.argsort() in src/functionalApi.py line 276. -/
def argsort (v : List ℚ) : List ℕ :=
  List.insertionSort (argKey v) (List.range v.length)

/-- Model of the Python slice l[-k:] for a nonnegative k: the last k
elements, the whole list when k exceeds the length, and (because -0 is 0)
the whole list when k is zero. -/
def sliceLast {α : Type} (k : ℕ) (l : List α) : List α :=
  if k = 0 then l else l.drop (l.length - k)

/-- Model of top_indices in predict_breed (src/functionalApi.py line 276):
probs.argsort()[-3:][::-1]. -/
def top_indices (probs : List ℚ) : List ℕ :=
  (sliceLast 3 (argsort probs)).reverse

/-- Model of the top_predictions list built in predict_breed
(src/functionalApi.py lines 278-285), with each entry as the pair of the
class index and its probability. -/
def top_predictions (probs : List ℚ) : List (ℕ × ℚ) :=
  (top_indices probs).map (fun i => (i, probs.getD i 0))

theorem argsort_perm (v : List ℚ) : (argsort v).Perm (List.range v.length) :=
  List.perm_insertionSort _ _

theorem argsort_sorted (v : List ℚ) : List.Pairwise (argKey v) (argsort v) :=
  List.sorted_insertionSort _ _

theorem argsort_nodup (v : List ℚ) : (argsort v).Nodup :=
  (argsort_perm v).symm.nodup (List.nodup_range _)

theorem argsort_length (v : List ℚ) : (argsort v).length = v.length :=
  (argsort_perm v).length_eq.trans (List.length_range _)

theorem pairwise_and_of {α : Type} {R S : α → α → Prop} {l : List α}
    (hR : List.Pairwise R l) (hS : List.Pairwise S l) :
    List.Pairwise (fun a b => R a b ∧ S a b) l := by
  induction l with
  | nil => exact List.Pairwise.nil
  | cons a l ih =>
    cases hR with
    | cons hRa hRl =>
      cases hS with
      | cons hSa hSl =>
        exact List.Pairwise.cons (fun b hb => ⟨hRa b hb, hSa b hb⟩) (ih hRl hSl)

theorem sliceLast_sublist {α : Type} (k : ℕ) (l : List α) :
    (sliceLast k l).Sublist l := by
  unfold sliceLast
  split
  · exact List.Sublist.refl l
  · exact List.drop_sublist _ l

theorem top_indices_sorted (v : List ℚ) :
    List.Pairwise
      (fun i j => v.getD j 0 < v.getD i 0 ∨ (v.getD i 0 = v.getD j 0 ∧ j < i))
      (top_indices v) := by
  have h1 : List.Pairwise (fun i j => argKey v i j ∧ i ≠ j) (argsort v) :=
    pairwise_and_of (argsort_sorted v) (argsort_nodup v)
  have h2 : List.Pairwise (fun i j => argKey v i j ∧ i ≠ j) (sliceLast 3 (argsort v)) :=
    List.Pairwise.sublist (sliceLast_sublist 3 (argsort v)) h1
  unfold top_indices
  rw [List.pairwise_reverse]
  refine h2.imp ?_
  intro a b hab
  rcases hab with ⟨hk, hne⟩
  rcases hk with h | ⟨he, hle⟩
  · exact Or.inl h
  · exact Or.inr ⟨he.symm, lt_of_le_of_ne hle hne⟩

/-- C1 (amended): the top-3 list produced by predict_breed is sorted by
probability descending, but for equal probabilities the class with the
HIGHER original class index ranks first: reversing a stable ascending
argsort puts tied classes in descending index order. Each entry carries
the probability stored at its index. -/
theorem C1_top3_sorted_desc_ties_higher_index (v : List ℚ) :
    List.Pairwise
      (fun p q : ℕ × ℚ => q.2 < p.2 ∨ (p.2 = q.2 ∧ q.1 < p.1))
      (top_predictions v) ∧
    ∀ p ∈ top_predictions v, p.2 = v.getD p.1 0 := by
  constructor
  · unfold top_predictions
    rw [List.pairwise_map]
    exact top_indices_sorted v
  · intro p hp
    unfold top_predictions at hp
    rcases List.mem_map.mp hp with ⟨i, _, rfl⟩
    rfl

/-- C1 counterexample: on the probability vector with classes 0 and 1 tied
at one half, the top-3 list ranks class 1 before class 0, so the claimed
tie-break (lower class index first) fails. -/
theorem C1_counterexample :
    ¬ List.Pairwise
      (fun p q : ℕ × ℚ => q.2 < p.2 ∨ (p.2 = q.2 ∧ p.1 < q.1))
      (top_predictions [mkRat 1 2, mkRat 1 2, 0]) := by
  decide

/-- Bounding box in pixel coordinates, as the four integers x1, y1, x2, y2
unpacked from a detector box in predict_breed (src/functionalApi.py line 247). -/
structure BoundingBox where
  x1 : ℤ
  y1 : ℤ
  x2 : ℤ
  y2 : ℤ
deriving DecidableEq, Repr

/-- Outcome of the crop step of predict_breed: either the clamped box is
degenerate and the invalid-crop error dictionary is returned, or the crop
with the clamped box is produced (src/functionalApi.py lines 254-259). -/
inductive CropOutcome where
  | invalidCrop : CropOutcome
  | cropped : BoundingBox → CropOutcome
deriving DecidableEq, Repr

/-- Clamping of the detector box to the image bounds
(src/functionalApi.py line 254): x1 = max 0 x1, y1 = max 0 y1,
x2 = min w x2, y2 = min h y2. -/
def clamp_box (w h : ℤ) (b : BoundingBox) : BoundingBox :=
  ⟨max 0 b.x1, max 0 b.y1, min w b.x2, min h b.y2⟩

/-- Crop validation of predict_breed (src/functionalApi.py lines 256-259):
after clamping, a degenerate box (x2 at most x1, or y2 at most y1) yields
the invalid-crop outcome, otherwise the region is cropped. -/
def crop_region (w h : ℤ) (b : BoundingBox) : CropOutcome :=
  if (clamp_box w h b).x2 ≤ (clamp_box w h b).x1 ∨
     (clamp_box w h b).y2 ≤ (clamp_box w h b).y1
  then CropOutcome.invalidCrop
  else CropOutcome.cropped (clamp_box w h b)

/-- C5: for every bounding box and image dimensions, after clamping either
the region is reported invalid (exactly when the clamped box is degenerate)
or a crop is produced and the clamped box satisfies
0 ≤ x1 < x2 ≤ w and 0 ≤ y1 < y2 ≤ h. -/
theorem C5_clamp_crop_dichotomy (w h : ℤ) (b : BoundingBox) :
    (crop_region w h b = CropOutcome.invalidCrop ∧
      ((clamp_box w h b).x2 ≤ (clamp_box w h b).x1 ∨
       (clamp_box w h b).y2 ≤ (clamp_box w h b).y1)) ∨
    (crop_region w h b = CropOutcome.cropped (clamp_box w h b) ∧
      0 ≤ (clamp_box w h b).x1 ∧ (clamp_box w h b).x1 < (clamp_box w h b).x2 ∧
      (clamp_box w h b).x2 ≤ w ∧
      0 ≤ (clamp_box w h b).y1 ∧ (clamp_box w h b).y1 < (clamp_box w h b).y2 ∧
      (clamp_box w h b).y2 ≤ h) := by
  by_cases hc : ((clamp_box w h b).x2 ≤ (clamp_box w h b).x1 ∨
      (clamp_box w h b).y2 ≤ (clamp_box w h b).y1)
  · exact Or.inl ⟨by simp only [crop_region, if_pos hc], hc⟩
  · refine Or.inr ⟨by simp only [crop_region, if_neg hc], ?_⟩
    push_neg at hc
    simp only [clamp_box] at hc ⊢
    omega

/-- One detection of the detector adapter: a box, an integer class label
and a confidence, mirroring the parallel boxes and labels arrays read in
predict_breed (src/functionalApi.py lines 233-234). -/
structure Detection where
  box : BoundingBox
  cls : ℤ
  conf : ℚ
deriving DecidableEq, Repr

/-- Model of the first-dog selection loop of predict_breed
(src/functionalApi.py lines 236-241): scan the detections in the detector
output order and keep the first whose class label is 16 (the COCO dog
category); confidences are never consulted. -/
def first_dog : List Detection → Option Detection
  | [] => none
  | d :: ds => if d.cls = 16 then some d else first_dog ds

/-- C7: the region extractor follows a first-match policy: the selected
detection is the head of the sublist of detections labelled 16, in the
original detector output order, and rewriting every confidence value with
an arbitrary function does not change which detection is selected. -/
theorem C7_first_match_policy (dets : List Detection) (f : Detection → ℚ) :
    first_dog dets = (dets.filter (fun d => d.cls == 16)).head? ∧
    first_dog (dets.map (fun d => ⟨d.box, d.cls, f d⟩)) =
      (first_dog dets).map (fun d => ⟨d.box, d.cls, f d⟩) := by
  induction dets with
  | nil => exact ⟨rfl, rfl⟩
  | cons d ds ih =>
    constructor
    · by_cases hd : d.cls = 16
      · simp [first_dog, hd, List.filter_cons]
      · simp [first_dog, hd, List.filter_cons, ih.1]
    · by_cases hd : d.cls = 16
      · simp [first_dog, hd]
      · simp [first_dog, hd, ih.2]

/-- Result dictionary returned by predict_breed: either an error dictionary
with a message, or the success dictionary whose leading fields are the top
breed name and its confidence (src/functionalApi.py lines 299-314). -/
inductive PredictResult where
  | errorDict : String → PredictResult
  | success : String → ℚ → PredictResult
deriving DecidableEq, Repr

/-- Instrumented outcome of one predict_breed call: the returned result
plus whether the temporary crop file was written (cv2.imwrite, line 263)
and whether the classifier was invoked (classifier.predict, line 272). -/
structure PredictTrace where
  result : PredictResult
  cropCreated : Bool
  classifierInvoked : Bool
deriving DecidableEq, Repr

/-- Environment of one predict_breed call: the outcomes of the fallible
collaborator operations and the pure data they deliver. loadOk models
PIL image loading (line 223), boxesNone the ultralytics boxes-is-None
check (line 230), cvOk the cv2.imread plus shape read (lines 250-251),
classify the classifier adapter on the cropped region, and breeds the
BREED_CLASSES vocabulary. -/
structure PredictEnv where
  loadOk : Except String Unit
  boxesNone : Bool
  detections : List Detection
  imgW : ℤ
  imgH : ℤ
  cvOk : Except String Unit
  classify : BoundingBox → List ℚ
  breeds : List String

/-- Model of the loop building top_predictions (src/functionalApi.py
lines 278-285): look each top index up in the breed vocabulary, raising an
index error (as Python list indexing does) when an index is out of range. -/
def lookup_breeds (breeds : List String) (probs : List ℚ) :
    List ℕ → Except String (List (String × ℚ))
  | [] => Except.ok []
  | i :: is =>
    if h : i < breeds.length then
      match lookup_breeds breeds probs is with
      | Except.ok rest => Except.ok ((breeds.get ⟨i, h⟩, probs.getD i 0) :: rest)
      | Except.error e => Except.error e
    else Except.error "list index out of range"

/-- Top-prediction construction of predict_breed: breed names and
confidences for the top-3 indices (src/functionalApi.py lines 274-285). -/
def mk_top_predictions (breeds : List String) (probs : List ℚ) :
    Except String (List (String × ℚ)) :=
  lookup_breeds breeds probs (top_indices probs)

/-- Body of predict_breed inside its try block (src/functionalApi.py
lines 221-311). An Except.error value models an exception raised inside
the try block; the structured error dictionaries for expected outcomes
are ordinary Except.ok results. -/
def predict_try (env : PredictEnv) : Except String PredictTrace :=
  match env.loadOk with
  | Except.error e => Except.error e
  | Except.ok _ =>
    if env.boxesNone then
      Except.ok ⟨PredictResult.errorDict "No dogs detected", false, false⟩
    else
      match first_dog env.detections with
      | none => Except.ok ⟨PredictResult.errorDict "No dog detected", false, false⟩
      | some d =>
        match env.cvOk with
        | Except.error e => Except.error e
        | Except.ok _ =>
          match crop_region env.imgW env.imgH d.box with
          | CropOutcome.invalidCrop =>
            Except.ok ⟨PredictResult.errorDict "Invalid crop dimensions", false, false⟩
          | CropOutcome.cropped c =>
            match mk_top_predictions env.breeds (env.classify c) with
            | Except.error e => Except.error e
            | Except.ok [] => Except.error "list index out of range"
            | Except.ok (t :: _) =>
              Except.ok ⟨PredictResult.success t.1 t.2, true, true⟩

/-- Model of predict_breed as seen by its caller (src/functionalApi.py
lines 220-314): the try body with the catch-all except clause that turns
any raised exception into an error dictionary holding its message. -/
def predict_breed (env : PredictEnv) : PredictResult :=
  match predict_try env with
  | Except.ok t => t.result
  | Except.error e => PredictResult.errorDict e

/-- C6: when the image loads and the detector yields no detection of the
dog category, predict_breed returns a structured error dictionary, no crop
file is written and the classifier is never invoked; the zero-box case
(boxes is None) behaves the same with its own message. -/
theorem C6_no_dog_structured_error (env : PredictEnv)
    (hload : env.loadOk = Except.ok ())
    (hnone : first_dog env.detections = none) :
    (env.boxesNone = true →
      predict_try env =
        Except.ok ⟨PredictResult.errorDict "No dogs detected", false, false⟩ ∧
      predict_breed env = PredictResult.errorDict "No dogs detected") ∧
    (env.boxesNone = false →
      predict_try env =
        Except.ok ⟨PredictResult.errorDict "No dog detected", false, false⟩ ∧
      predict_breed env = PredictResult.errorDict "No dog detected") := by
  constructor
  · intro hb
    have h1 : predict_try env =
        Except.ok ⟨PredictResult.errorDict "No dogs detected", false, false⟩ := by
      unfold predict_try
      rw [hload, hb]
      simp
    exact ⟨h1, by unfold predict_breed; rw [h1]⟩
  · intro hb
    have h1 : predict_try env =
        Except.ok ⟨PredictResult.errorDict "No dog detected", false, false⟩ := by
      unfold predict_try
      rw [hload, hb, hnone]
      simp
    exact ⟨h1, by unfold predict_breed; rw [h1]⟩

/-- C6 witness: a concrete environment whose only detection is a cat
(COCO class 15), evaluated through the theorem. -/
theorem C6_no_dog_structured_error_witness :
    predict_try
        ⟨Except.ok (), false, [⟨⟨0, 0, 4, 4⟩, 15, 0⟩], 10, 10, Except.ok (),
          fun _ => [], []⟩ =
      Except.ok ⟨PredictResult.errorDict "No dog detected", false, false⟩ ∧
    predict_breed
        ⟨Except.ok (), false, [⟨⟨0, 0, 4, 4⟩, 15, 0⟩], 10, 10, Except.ok (),
          fun _ => [], []⟩ =
      PredictResult.errorDict "No dog detected" :=
  (C6_no_dog_structured_error
      ⟨Except.ok (), false, [⟨⟨0, 0, 4, 4⟩, 15, 0⟩], 10, 10, Except.ok (),
        fun _ => [], []⟩ rfl (by decide)).2 rfl

/-- C10: predict_breed is total at its public interface: every call
returns either an error dictionary or a success dictionary, and whenever
the try body raises an exception with message e the caller receives the
error dictionary holding e, never the exception itself. -/
theorem C10_predict_breed_total (env : PredictEnv) :
    ((∃ m, predict_breed env = PredictResult.errorDict m) ∨
     (∃ b c, predict_breed env = PredictResult.success b c)) ∧
    (∀ e, predict_try env = Except.error e →
      predict_breed env = PredictResult.errorDict e) := by
  constructor
  · cases h : predict_breed env with
    | errorDict m => exact Or.inl ⟨m, rfl⟩
    | success b c => exact Or.inr ⟨b, c, rfl⟩
  · intro e he
    unfold predict_breed
    rw [he]

/-- C10 witness: a concrete environment whose image load raises is
converted into the corresponding error dictionary. -/
theorem C10_predict_breed_total_witness :
    predict_breed
        ⟨Except.error "cannot identify image file", false, [], 10, 10,
          Except.ok (), fun _ => [], []⟩ =
      PredictResult.errorDict "cannot identify image file" :=
  (C10_predict_breed_total
      ⟨Except.error "cannot identify image file", false, [], 10, 10,
        Except.ok (), fun _ => [], []⟩).2
    "cannot identify image file" rfl

/-- Model of np.unique(np.concatenate([y_true, y_pred])) in
DogBreedEvaluator._calculate_metrics (src/model/evaluator.py line 134):
the distinct labels observed in either list, sorted ascending. -/
def unique_classes (y_true y_pred : List ℕ) : List ℕ :=
  List.insertionSort (fun a b => a ≤ b) ((y_true ++ y_pred).dedup)

/-- Count of samples whose true and predicted label both equal c, over the
paired label lists. -/
def true_positives (c : ℕ) (pairs : List (ℕ × ℕ)) : ℕ :=
  (pairs.filter (fun pr => pr.1 == c && pr.2 == c)).length

/-- Count of samples predicted as class c. -/
def pred_support (c : ℕ) (pairs : List (ℕ × ℕ)) : ℕ :=
  (pairs.filter (fun pr => pr.2 == c)).length

/-- Count of samples whose true label is c (the sklearn support of c). -/
def true_support (c : ℕ) (pairs : List (ℕ × ℕ)) : ℕ :=
  (pairs.filter (fun pr => pr.1 == c)).length

/-- Per-class precision with the sklearn zero_division=0 policy used in
_calculate_metrics (src/model/evaluator.py line 143). -/
def precision_of (c : ℕ) (pairs : List (ℕ × ℕ)) : ℚ :=
  if pred_support c pairs = 0 then 0
  else (true_positives c pairs : ℚ) / (pred_support c pairs : ℚ)

/-- Per-class recall with the zero_division=0 policy
(src/model/evaluator.py line 144). -/
def recall_of (c : ℕ) (pairs : List (ℕ × ℕ)) : ℚ :=
  if true_support c pairs = 0 then 0
  else (true_positives c pairs : ℚ) / (true_support c pairs : ℚ)

/-- Per-class F1 as the harmonic mean of precision and recall, zero when
both vanish (src/model/evaluator.py line 145). -/
def f1_of (c : ℕ) (pairs : List (ℕ × ℕ)) : ℚ :=
  if precision_of c pairs + recall_of c pairs = 0 then 0
  else 2 * precision_of c pairs * recall_of c pairs /
    (precision_of c pairs + recall_of c pairs)

/-- Overall accuracy: fraction of samples whose predicted label equals the
true label (sklearn accuracy_score, src/model/evaluator.py line 137). -/
def accuracy_score (y_true y_pred : List ℕ) : ℚ :=
  if y_true.length = 0 then 0
  else (((y_true.zip y_pred).filter (fun pr => pr.1 == pr.2)).length : ℚ) /
    (y_true.length : ℚ)

/-- Support-weighted average of a per-class metric over the observed
classes, as computed by the sklearn average equal weighted mode used in
_calculate_metrics (src/model/evaluator.py lines 138-140). -/
def weighted_avg (metric : ℕ → List (ℕ × ℕ) → ℚ) (y_true y_pred : List ℕ) : ℚ :=
  let pairs := y_true.zip y_pred
  let cls := unique_classes y_true y_pred
  let tot : ℚ := cls.foldr (fun c acc => (true_support c pairs : ℚ) + acc) 0
  if tot = 0 then 0
  else cls.foldr (fun c acc => (true_support c pairs : ℚ) * metric c pairs + acc) 0 / tot

/-- Metrics dictionary returned by DogBreedEvaluator._calculate_metrics
(src/model/evaluator.py lines 147-157). The dictionary key named recall is
rendered here as the field recall_score, since recall is a reserved word
in this Lean environment. -/
structure MetricsReport where
  accuracy : ℚ
  precision : ℚ
  recall_score : ℚ
  f1 : ℚ
  precision_per_class : List ℚ
  recall_per_class : List ℚ
  f1_per_class : List ℚ
  num_classes_in_data : ℕ
  total_classes : ℕ
deriving DecidableEq, Repr

/-- Model of DogBreedEvaluator._calculate_metrics (src/model/evaluator.py
lines 118-159). The y_pred_proba argument is accepted and ignored exactly
as in the source; total_classes is self.num_classes, the length of the
class-name vocabulary. Per-class arrays are computed only over the labels
observed in the union of the true and predicted labels. -/
def calculate_metrics (y_true y_pred : List ℕ) (y_pred_proba : List (List ℚ))
    (total_classes : ℕ) : MetricsReport :=
  { accuracy := accuracy_score y_true y_pred
    precision := weighted_avg precision_of y_true y_pred
    recall_score := weighted_avg recall_of y_true y_pred
    f1 := weighted_avg f1_of y_true y_pred
    precision_per_class :=
      (unique_classes y_true y_pred).map (fun c => precision_of c (y_true.zip y_pred))
    recall_per_class :=
      (unique_classes y_true y_pred).map (fun c => recall_of c (y_true.zip y_pred))
    f1_per_class :=
      (unique_classes y_true y_pred).map (fun c => f1_of c (y_true.zip y_pred))
    num_classes_in_data := (unique_classes y_true y_pred).length
    total_classes := total_classes }

theorem mem_unique_classes (y_true y_pred : List ℕ) (c : ℕ) :
    c ∈ unique_classes y_true y_pred ↔ (c ∈ y_true ∨ c ∈ y_pred) := by
  unfold unique_classes
  rw [List.mem_insertionSort, List.mem_dedup, List.mem_append]

/-- C2: the per-class precision, recall and F1 arrays are indexed exactly
by the labels observed in the union of the true and predicted labels (a
class absent from both never appears), and each array has length equal to
the reported num_classes_in_data count. -/
theorem C2_per_class_observed_only (y_true y_pred : List ℕ)
    (y_pred_proba : List (List ℚ)) (total_classes : ℕ) :
    (calculate_metrics y_true y_pred y_pred_proba total_classes).precision_per_class.length =
      (calculate_metrics y_true y_pred y_pred_proba total_classes).num_classes_in_data ∧
    (calculate_metrics y_true y_pred y_pred_proba total_classes).recall_per_class.length =
      (calculate_metrics y_true y_pred y_pred_proba total_classes).num_classes_in_data ∧
    (calculate_metrics y_true y_pred y_pred_proba total_classes).f1_per_class.length =
      (calculate_metrics y_true y_pred y_pred_proba total_classes).num_classes_in_data ∧
    (calculate_metrics y_true y_pred y_pred_proba total_classes).precision_per_class =
      (unique_classes y_true y_pred).map (fun c => precision_of c (y_true.zip y_pred)) ∧
    (calculate_metrics y_true y_pred y_pred_proba total_classes).recall_per_class =
      (unique_classes y_true y_pred).map (fun c => recall_of c (y_true.zip y_pred)) ∧
    (calculate_metrics y_true y_pred y_pred_proba total_classes).f1_per_class =
      (unique_classes y_true y_pred).map (fun c => f1_of c (y_true.zip y_pred)) ∧
    ∀ c : ℕ, c ∈ unique_classes y_true y_pred ↔ (c ∈ y_true ∨ c ∈ y_pred) := by
  refine ⟨?_, ?_, ?_, rfl, rfl, rfl, mem_unique_classes y_true y_pred⟩
  · simp [calculate_metrics]
  · simp [calculate_metrics]
  · simp [calculate_metrics]

/-- Model of np.argmax on one probability row: the first index holding the
maximum value, via the running best-index scan (strict improvement only),
as used in DogBreedEvaluator.evaluate_arrays (src/model/evaluator.py
line 98). -/
def argmax_row (row : List ℚ) : ℕ :=
  (List.range row.length).foldl
    (fun best i => if row.getD best 0 < row.getD i 0 then i else best) 0

/-- State built by DogBreedEvaluator.__init__ (src/model/evaluator.py
lines 29-40): the class-name vocabulary is stored and counted; no check of
any kind relates it to the classifier output width. -/
structure DogBreedEvaluatorInit where
  class_names : List String

/-- The stored num_classes field: the length of the class-name vocabulary
(src/model/evaluator.py line 39). -/
def evaluator_num_classes (ev : DogBreedEvaluatorInit) : ℕ :=
  ev.class_names.length

/-- Metric part of DogBreedEvaluator.evaluate_arrays for integer labels
(src/model/evaluator.py lines 81-116): predicted labels are the per-row
argmax of the probability matrix, and the metrics are computed by
_calculate_metrics with no validation of the vocabulary length against the
probability width. -/
def evaluate_arrays_metrics (ev : DogBreedEvaluatorInit) (y_test : List ℕ)
    (y_pred_proba : List (List ℚ)) : MetricsReport :=
  calculate_metrics y_test (y_pred_proba.map argmax_row) y_pred_proba
    (evaluator_num_classes ev)

/-- Class-name lookup of DogBreedEvaluator.get_worst_predictions
(src/model/evaluator.py lines 339-340): an in-range label indexes the
vocabulary, an out-of-range label silently becomes the placeholder name
Class_ followed by the label. -/
def safe_class_name (class_names : List String) (label : ℕ) : String :=
  if h : label < class_names.length then class_names.get ⟨label, h⟩
  else "Class_" ++ toString label

/-- C3 counterexample: with a one-name vocabulary and width-two probability
rows (a mismatch), the evaluation does not fail: the metrics are computed
(two observed classes, per-class arrays of length two) and the
out-of-range label 1 is silently rendered as the placeholder Class_1,
contradicting the claim that the run fails before metric computation and
that the mismatch is never silently tolerated. -/
theorem C3_counterexample :
    (evaluate_arrays_metrics ⟨["a"]⟩ [0, 1]
        [[mkRat 1 2, mkRat 1 4], [mkRat 1 4, mkRat 1 2]]).num_classes_in_data = 2 ∧
    (evaluate_arrays_metrics ⟨["a"]⟩ [0, 1]
        [[mkRat 1 2, mkRat 1 4], [mkRat 1 4, mkRat 1 2]]).precision_per_class.length = 2 ∧
    safe_class_name ["a"] 1 = "Class_1" := by
  refine ⟨by decide, by decide, by decide⟩

/-- C3 (amended): no mismatch check exists. The evaluator computes metrics
for any class-name vocabulary and any probability width without failing:
the result is exactly _calculate_metrics on the data with total_classes
set to the vocabulary length, and any label at or beyond the vocabulary
length is silently mapped to the placeholder name Class_ followed by the
label in worst-prediction reporting. -/
theorem C3_no_validation (class_names : List String) (label : ℕ)
    (hmism : class_names.length ≤ label)
    (y_test : List ℕ) (y_pred_proba : List (List ℚ)) :
    safe_class_name class_names label = "Class_" ++ toString label ∧
    evaluate_arrays_metrics ⟨class_names⟩ y_test y_pred_proba =
      calculate_metrics y_test (y_pred_proba.map argmax_row) y_pred_proba
        class_names.length ∧
    (evaluate_arrays_metrics ⟨class_names⟩ y_test y_pred_proba).total_classes =
      class_names.length := by
  refine ⟨?_, rfl, rfl⟩
  unfold safe_class_name
  rw [dif_neg (by omega)]

/-- C3 witness: the amended theorem applied to a one-name vocabulary, the
out-of-range label 1 and width-two probability rows. -/
theorem C3_no_validation_witness :
    safe_class_name ["a"] 1 = "Class_" ++ toString 1 ∧
    evaluate_arrays_metrics ⟨["a"]⟩ [0, 1] [[mkRat 1 2, mkRat 1 4], [mkRat 1 4, mkRat 1 2]] =
      calculate_metrics [0, 1]
        ([[mkRat 1 2, mkRat 1 4], [mkRat 1 4, mkRat 1 2]].map argmax_row)
        [[mkRat 1 2, mkRat 1 4], [mkRat 1 4, mkRat 1 2]] (List.length ["a"]) ∧
    (evaluate_arrays_metrics ⟨["a"]⟩ [0, 1]
        [[mkRat 1 2, mkRat 1 4], [mkRat 1 4, mkRat 1 2]]).total_classes =
      List.length ["a"] :=
  C3_no_validation ["a"] 1 (by decide) [0, 1]
    [[mkRat 1 2, mkRat 1 4], [mkRat 1 4, mkRat 1 2]]

/-- Model of DogBreedEvaluator.save_results (src/model/evaluator.py lines
372-396): with no stored results it warns and returns; otherwise it opens
the destination and writes the report, and the file write has no exception
handler, so a failed write raises. The write_ok flag models whether the
destination can be written. -/
def save_results (has_results write_ok : Bool) : Except String Unit :=
  if has_results = false then Except.ok ()
  else if write_ok then Except.ok () else Except.error "could not write results file"

/-- Model of the persistence tail of the evaluate_model step
(src/steps/evaluate_model.py lines 90-108): save_results runs unguarded
inside the outer try whose handler logs and re-raises, so a failed report
write propagates out of the step; only the mlflow artifact logging that
follows a successful write sits in its own try block whose handler merely
warns. On success the step returns the metrics computed in memory. -/
def evaluate_model_persist (metrics : MetricsReport) (write_ok log_ok : Bool) :
    Except String MetricsReport :=
  match save_results true write_ok with
  | Except.error e => Except.error e
  | Except.ok _ =>
    match (if log_ok then (Except.ok () : Except String Unit)
           else Except.error "mlflow log_artifact failed") with
    | Except.error _ => Except.ok metrics
    | Except.ok _ => Except.ok metrics

/-- C4 counterexample: with a failing report write the evaluation step
returns the error instead of the in-memory metrics, so the run as a whole
fails, contradicting the claim that persistence failures are non-fatal. -/
theorem C4_counterexample :
    evaluate_model_persist ⟨0, 0, 0, 0, [], [], [], 0, 0⟩ false true =
      Except.error "could not write results file" := rfl

/-- C4 (amended): a failure to write the report file is fatal to the
evaluation step: the error propagates and the metrics are not returned to
the caller. Only a failure of the mlflow artifact logging after a
successful write is caught and non-fatal, and a save_results call with no
stored results returns without error. -/
theorem C4_report_write_fatal (metrics : MetricsReport) (log_ok : Bool) :
    evaluate_model_persist metrics true log_ok = Except.ok metrics ∧
    evaluate_model_persist metrics false log_ok =
      Except.error "could not write results file" ∧
    ∀ write_ok : Bool, save_results false write_ok = Except.ok () := by
  cases log_ok with
  | false => exact ⟨rfl, rfl, fun _ => rfl⟩
  | true => exact ⟨rfl, rfl, fun _ => rfl⟩

/-- Model of DogBreedEvaluator.get_top_k_accuracy (src/model/evaluator.py
lines 278-308): for each sample take the last k entries of the ascending
argsort of its probability row (the numpy slice [:, -k:]), count the
samples whose true label appears among them, and divide by the number of
samples. -/
def get_top_k_accuracy (k : ℕ) (y_true : List ℕ) (y_pred_proba : List (List ℚ)) : ℚ :=
  let top_k_preds := y_pred_proba.map (fun row => sliceLast k (argsort row))
  let correct :=
    ((y_true.zip top_k_preds).filter (fun pr => decide (pr.1 ∈ pr.2))).length
  (correct : ℚ) / (y_true.length : ℚ)

theorem mem_argsort (v : List ℚ) (i : ℕ) : i ∈ argsort v ↔ i < v.length := by
  unfold argsort
  rw [List.mem_insertionSort, List.mem_range]

/-- C8: on a non-empty batch whose true labels are valid class indices for
their probability rows, get_top_k_accuracy lies in the closed interval
from 0 to 1, and whenever k is at least every row width it equals
exactly 1. -/
theorem C8_top_k_accuracy_bounds (k : ℕ) (y_true : List ℕ)
    (y_pred_proba : List (List ℚ))
    (hne : y_true ≠ [])
    (hlen : y_true.length = y_pred_proba.length)
    (hvalid : ∀ pr ∈ y_true.zip y_pred_proba, pr.1 < pr.2.length) :
    0 ≤ get_top_k_accuracy k y_true y_pred_proba ∧
    get_top_k_accuracy k y_true y_pred_proba ≤ 1 ∧
    ((∀ row ∈ y_pred_proba, row.length ≤ k) →
      get_top_k_accuracy k y_true y_pred_proba = 1) := by
  have hpos : (0 : ℚ) < (y_true.length : ℚ) := by
    have : 0 < y_true.length := List.length_pos.mpr hne
    exact_mod_cast this
  have hzip : y_true.zip (y_pred_proba.map (fun row => sliceLast k (argsort row))) =
      (y_true.zip y_pred_proba).map
        (Prod.map id (fun row => sliceLast k (argsort row))) :=
    List.zip_map_right _ _ _
  have hcount :
      ((y_true.zip (y_pred_proba.map (fun row => sliceLast k (argsort row)))).filter
        (fun pr => decide (pr.1 ∈ pr.2))).length ≤ y_true.length := by
    calc ((y_true.zip (y_pred_proba.map (fun row => sliceLast k (argsort row)))).filter
            (fun pr => decide (pr.1 ∈ pr.2))).length
        ≤ (y_true.zip (y_pred_proba.map (fun row => sliceLast k (argsort row)))).length :=
          List.length_filter_le _ _
      _ ≤ y_true.length := by
          rw [List.length_zip]
          exact min_le_left _ _
  refine ⟨?_, ?_, ?_⟩
  · exact div_nonneg (Nat.cast_nonneg _) (le_of_lt hpos)
  · rw [get_top_k_accuracy, div_le_one hpos]
    exact_mod_cast hcount
  · intro hk
    have hall : ∀ pr ∈ y_true.zip (y_pred_proba.map (fun row => sliceLast k (argsort row))),
        decide (pr.1 ∈ pr.2) = true := by
      intro pr hpr
      rw [hzip] at hpr
      rcases List.mem_map.mp hpr with ⟨q, hq, rfl⟩
      have hq1 : q.1 < q.2.length := hvalid q hq
      have hq2 : q.2 ∈ y_pred_proba := (List.of_mem_zip hq).2
      have hkq : q.2.length ≤ k := hk q.2 hq2
      have hk0 : k ≠ 0 := by
        intro h0
        rw [h0] at hkq
        omega
      have hslice : sliceLast k (argsort q.2) = argsort q.2 := by
        unfold sliceLast
        rw [if_neg hk0, argsort_length]
        have : q.2.length - k = 0 := by omega
        rw [this, List.drop_zero]
      simp only [Prod.map, id]
      rw [decide_eq_true_iff, hslice, mem_argsort]
      exact hq1
    have hfilter :
        ((y_true.zip (y_pred_proba.map (fun row => sliceLast k (argsort row)))).filter
          (fun pr => decide (pr.1 ∈ pr.2))) =
        y_true.zip (y_pred_proba.map (fun row => sliceLast k (argsort row))) :=
      List.filter_eq_self.mpr hall
    rw [get_top_k_accuracy, hfilter]
    have hlenzip :
        (y_true.zip (y_pred_proba.map (fun row => sliceLast k (argsort row)))).length =
          y_true.length := by
      rw [List.length_zip, List.length_map, ← hlen]
      exact min_self _
    rw [hlenzip]
    exact div_self (ne_of_gt hpos)

/-- C8 witness: the theorem applied to a concrete single-sample batch of
width two, with k equal to 2. -/
theorem C8_top_k_accuracy_bounds_witness :
    0 ≤ get_top_k_accuracy 2 [0] [[mkRat 1 2, mkRat 1 2]] ∧
    get_top_k_accuracy 2 [0] [[mkRat 1 2, mkRat 1 2]] ≤ 1 ∧
    ((∀ row ∈ [[mkRat 1 2, mkRat 1 2]], List.length row ≤ 2) →
      get_top_k_accuracy 2 [0] [[mkRat 1 2, mkRat 1 2]] = 1) :=
  C8_top_k_accuracy_bounds 2 [0] [[mkRat 1 2, mkRat 1 2]]
    (by decide) (by decide) (by decide)

/-- One entry of the worst-prediction list built by
DogBreedEvaluator.get_worst_predictions (src/model/evaluator.py
lines 342-349). -/
structure WorstEntry where
  index : ℕ
  true_label : String
  pred_label : String
  confidence : ℚ
  is_correct : Bool
  error_score : ℚ
deriving DecidableEq, Repr, Inhabited

/-- The entry built for sample i by get_worst_predictions
(src/model/evaluator.py lines 331-349): the confidence is the probability
assigned to the predicted label, and the error score is that confidence
when the sample is misclassified and one minus it when it is correct. -/
def worst_entry_at (class_names : List String) (y_true y_pred : List ℕ)
    (y_pred_proba : List (List ℚ)) (i : ℕ) : WorstEntry :=
  let tr := y_true.getD i 0
  let pr := y_pred.getD i 0
  let conf := (y_pred_proba.getD i []).getD pr 0
  let correct := tr == pr
  { index := i
    true_label := safe_class_name class_names tr
    pred_label := safe_class_name class_names pr
    confidence := conf
    is_correct := correct
    error_score := if correct then 1 - conf else conf }

/-- The full per-sample list built by the loop of get_worst_predictions
(src/model/evaluator.py lines 329-349). -/
def worst_list (class_names : List String) (y_true y_pred : List ℕ)
    (y_pred_proba : List (List ℚ)) : List WorstEntry :=
  (List.range y_true.length).map (worst_entry_at class_names y_true y_pred y_pred_proba)

/-- Ordering used to model the stable Python sort with reverse=True on the
error score (src/model/evaluator.py line 352): higher score first, ties
keeping the original sample order (entries enter the sort in index
order). -/
def worst_le (a b : WorstEntry) : Prop :=
  b.error_score < a.error_score ∨ (a.error_score = b.error_score ∧ a.index ≤ b.index)

instance worstLeDecidable : DecidableRel worst_le := fun a b =>
  inferInstanceAs
    (Decidable (b.error_score < a.error_score ∨
      (a.error_score = b.error_score ∧ a.index ≤ b.index)))

instance worstLeTotal : IsTotal WorstEntry worst_le := by
  constructor
  intro a b
  rcases lt_trichotomy a.error_score b.error_score with h | h | h
  · exact Or.inr (Or.inl h)
  · rcases Nat.le_total a.index b.index with hab | hab
    · exact Or.inl (Or.inr ⟨h, hab⟩)
    · exact Or.inr (Or.inr ⟨h.symm, hab⟩)
  · exact Or.inl (Or.inl h)

instance worstLeTrans : IsTrans WorstEntry worst_le := by
  constructor
  intro a b c hab hbc
  rcases hab with h | ⟨he, hle⟩
  · rcases hbc with h2 | ⟨he2, _⟩
    · exact Or.inl (h2.trans h)
    · exact Or.inl (lt_of_le_of_lt (le_of_eq he2.symm) h)
  · rcases hbc with h2 | ⟨he2, hle2⟩
    · exact Or.inl (lt_of_lt_of_le h2 (le_of_eq he.symm))
    · exact Or.inr ⟨he.trans he2, hle.trans hle2⟩

/-- Descending stable sort on the error score
(src/model/evaluator.py line 352). -/
def sort_desc (l : List WorstEntry) : List WorstEntry :=
  List.insertionSort worst_le l

/-- Model of DogBreedEvaluator.get_worst_predictions (src/model/evaluator.py
lines 310-354): the per-sample entries, sorted by error score descending,
truncated to the first n. -/
def get_worst_predictions (n : ℕ) (class_names : List String)
    (y_true y_pred : List ℕ) (y_pred_proba : List (List ℚ)) : List WorstEntry :=
  (sort_desc (worst_list class_names y_true y_pred y_pred_proba)).take n

theorem getD_bounds (row : List ℚ) (j : ℕ)
    (h : ∀ x ∈ row, 0 ≤ x ∧ x ≤ 1) : 0 ≤ row.getD j 0 ∧ row.getD j 0 ≤ 1 := by
  by_cases hj : j < row.length
  · rw [List.getD_eq_getElem row 0 hj]
    exact h _ (List.getElem_mem hj)
  · rw [List.getD_eq_default row 0 (by omega)]
    exact ⟨le_refl 0, zero_le_one⟩

/-- C9: every worst-prediction entry carries the error score equal to the
predicted-label confidence when misclassified and one minus it when
correct; the returned list is the first n entries of the full list sorted
by error score descending (a permutation of the per-sample list); and when
all probabilities are in the unit interval every returned error score is
too. -/
theorem C9_worst_predictions_spec (n : ℕ) (class_names : List String)
    (y_true y_pred : List ℕ) (y_pred_proba : List (List ℚ))
    (hp : ∀ row ∈ y_pred_proba, ∀ x ∈ row, 0 ≤ x ∧ x ≤ 1) :
    (∀ e ∈ worst_list class_names y_true y_pred y_pred_proba,
      e.error_score = (if e.is_correct then 1 - e.confidence else e.confidence) ∧
      e.confidence =
        (y_pred_proba.getD e.index []).getD (y_pred.getD e.index 0) 0 ∧
      (e.is_correct = true ↔ y_true.getD e.index 0 = y_pred.getD e.index 0)) ∧
    get_worst_predictions n class_names y_true y_pred y_pred_proba =
      (sort_desc (worst_list class_names y_true y_pred y_pred_proba)).take n ∧
    (sort_desc (worst_list class_names y_true y_pred y_pred_proba)).Perm
      (worst_list class_names y_true y_pred y_pred_proba) ∧
    List.Pairwise (fun a b => b.error_score ≤ a.error_score)
      (sort_desc (worst_list class_names y_true y_pred y_pred_proba)) ∧
    (∀ e ∈ get_worst_predictions n class_names y_true y_pred y_pred_proba,
      0 ≤ e.error_score ∧ e.error_score ≤ 1) := by
  refine ⟨?_, rfl, List.perm_insertionSort _ _, ?_, ?_⟩
  · intro e he
    rcases List.mem_map.mp he with ⟨i, _, rfl⟩
    refine ⟨?_, ?_, ?_⟩
    · simp only [worst_entry_at]
    · simp only [worst_entry_at]
    · simp only [worst_entry_at]
      exact beq_iff_eq
  · exact (List.sorted_insertionSort worst_le _).imp
      (fun hab => by
        rcases hab with h | ⟨he, _⟩
        · exact le_of_lt h
        · exact le_of_eq he.symm)
  · intro e he
    have he1 : e ∈ sort_desc (worst_list class_names y_true y_pred y_pred_proba) :=
      (List.take_sublist n _).subset he
    have he2 : e ∈ worst_list class_names y_true y_pred y_pred_proba :=
      (List.perm_insertionSort worst_le _).mem_iff.mp he1
    rcases List.mem_map.mp he2 with ⟨i, _, rfl⟩
    have hconf : 0 ≤ (y_pred_proba.getD i []).getD (y_pred.getD i 0) 0 ∧
        (y_pred_proba.getD i []).getD (y_pred.getD i 0) 0 ≤ 1 := by
      apply getD_bounds
      by_cases hi : i < y_pred_proba.length
      · rw [List.getD_eq_getElem y_pred_proba [] hi]
        exact hp _ (List.getElem_mem hi)
      · rw [List.getD_eq_default y_pred_proba [] (by omega)]
        intro x hx
        exact absurd hx (List.not_mem_nil x)
    simp only [worst_entry_at]
    by_cases hc : (y_true.getD i 0 == y_pred.getD i 0) = true
    · rw [if_pos hc]
      constructor
      · linarith [hconf.2]
      · linarith [hconf.1]
    · rw [if_neg hc]
      exact hconf

/-- C9 witness: the theorem applied to a two-sample batch in which both
samples are misclassified, reading the bounds of the entry that the
returned list ranks first (the wrong prediction of confidence seven
tenths). -/
theorem C9_worst_predictions_spec_witness :
    0 ≤ (WorstEntry.mk 1 "b" "a" (mkRat 7 10) false (mkRat 7 10)).error_score ∧
    (WorstEntry.mk 1 "b" "a" (mkRat 7 10) false (mkRat 7 10)).error_score ≤ 1 :=
  (C9_worst_predictions_spec 1 ["a", "b"] [0, 1] [1, 0]
      [[mkRat 3 5, mkRat 2 5], [mkRat 7 10, mkRat 3 10]] (by decide)).2.2.2.2
    (WorstEntry.mk 1 "b" "a" (mkRat 7 10) false (mkRat 7 10)) (by decide)
